import Mathlib

/-!
Shallow embedding of the retrieval/fallback/normalization pipeline of
`src/market-metrics.py` (class `USMarketMetrics`), together with proofs about
the claims of the specification.

Modelling conventions:
* Python runtime values that flow through the resolvers are modelled by
  `PyVal` (numbers are exact rationals; the floating-point width of the
  original is irrelevant to every claim, which only exercises small decimal
  constants).
* A raised Python exception is modelled by the `Except String` monad inside a
  `try:` body; an enclosing `except Exception` handler is the total function
  `pyTry`.  Division of two numbers raises on a zero denominator.
* External collaborators (yfinance ticker info, the FRED series client, the
  HTTP downloader, the Excel parser, `float()` on strings, the wall clock)
  are the fields of `Env`; a field returning `Except.error` models the
  collaborator raising.
* A FRED series is a list of (date-index, value) observations, already
  carrying its `strftime('%Y-%m-%d')` rendering as the date.
* An Excel table is a list of named columns, each a list of cells; a `none`
  cell is a NaN.
-/

namespace MarketMetrics

/-- A Python runtime value as the resolvers produce and consume them. -/
inductive PyVal where
  | null
  | bool (b : Bool)
  | num (q : ℚ)
  | str (s : String)
  | dict (entries : List (String × PyVal))
  deriving Repr

/-- A Python exception reaching a caller: either the `KeyError` of a failed
dict lookup (the `UnknownIndicator` fault of the spec) or any other
exception with its message. -/
inductive PyErr where
  | keyError (k : String)
  | exn (msg : String)
  deriving Repr, DecidableEq

/-- One observation of a FRED series: its date index (already rendered as
`'%Y-%m-%d'`) and its value. -/
abbrev Obs := String × ℚ

/-- An Excel table: named columns of cells, a `none` cell being a NaN. -/
abbrev Table := List (String × List (Option PyVal))

/-- Python truthiness (`if value:`). -/
def truthy : PyVal → Bool
  | .null => false
  | .bool b => b
  | .num q => q ≠ 0
  | .str s => s ≠ ""
  | .dict entries => ¬ entries.isEmpty

/-- Case mapping of `str.upper()`, written character-wise so that it reduces
in the kernel. -/
def strUpper (s : String) : String := String.mk (s.data.map Char.toUpper)

/-- Case mapping of `str.lower()`. -/
def strLower (s : String) : String := String.mk (s.data.map Char.toLower)

/-- Python substring test (`pat in s`). -/
def strContains (s pat : String) : Bool := decide (pat.data <:+: s.data)

/-- Python `str.replace('%', '')`: drop every percent sign. -/
def stripPercentSign (s : String) : String := String.mk (s.data.filter (fun c => c ≠ '%'))

/-- Python `str.strip()`: drop whitespace from both ends. -/
def strStrip (s : String) : String :=
  String.mk (((s.data.dropWhile Char.isWhitespace).reverse.dropWhile Char.isWhitespace).reverse)

/-- Python `str.replace(' ', '_')` as used by the name normalizer. -/
def spacesToUnderscores (s : String) : String :=
  String.mk (s.data.map (fun c => if c = ' ' then '_' else c))

/-- Rendering `str(...)` of a value (only its stringness matters to the
claims; the exact float rendering is never inspected). -/
def pyStr : PyVal → String
  | .null => "None"
  | .bool b => if b then "True" else "False"
  | .num q => toString q
  | .str s => s
  | .dict _ => "\x7b...\x7d"

/-- The external collaborators consumed by `USMarketMetrics`, as the spec's
section 6 lists them.  An `Except.error` result models the collaborator
raising an exception. -/
structure Env where
  /-- `yf.Ticker(symbol).info.get(field)`: the looked-up info value
  (`PyVal.null` when the field is absent), or a raised network error. -/
  tickerInfo : String → String → Except String PyVal
  /-- `self.fred.get_series(series_id)`: the ordered observations, or a
  raised provider error. -/
  fredSeries : String → Except String (List Obs)
  /-- `requests.get(url).status_code`, or a raised network error. -/
  httpStatus : String → Except String Nat
  /-- `pd.read_excel(...)` keyed by the file name or URL it is given, or a
  raised parse error. -/
  readExcel : String → Except String Table
  /-- Behaviour of Python `float()` on a string: `none` models the raised
  `ValueError`. -/
  pyFloatStr : String → Option ℚ
  /-- Whether `importlib.import_module('openpyxl')` succeeds. -/
  openpyxlInstalled : Bool
  /-- `datetime.now().strftime('%Y-%m-%d')`. -/
  today : String
  /-- `datetime.now().strftime('%Y-%m-%d %H:%M:%S')`. -/
  nowStr : String

/-- Python `float(value)` on a runtime value; raises `TypeError` or
`ValueError` exactly when the original would. -/
def pyFloat (env : Env) : PyVal → Except String ℚ
  | .num q => pure q
  | .bool b => pure (if b then 1 else 0)
  | .str s =>
      match env.pyFloatStr s with
      | some q => pure q
      | none => Except.error "ValueError"
  | .null => Except.error "TypeError"
  | .dict _ => Except.error "TypeError"

/-- An `except Exception` handler around a `try:` body: the body's value on
success, the handler's value on any raised exception. -/
def pyTry (body : Except String PyVal) (handler : PyVal) : PyVal :=
  match body with
  | .ok v => v
  | .error _ => handler

/-- Division of two Python numbers: raises `ZeroDivisionError` on a zero
denominator, otherwise exact division. -/
def pyDiv (a b : ℚ) : Except String ℚ :=
  if b = 0 then Except.error "ZeroDivisionError" else pure (a / b)

/-- Negative positional indexing `xs.iloc[-k]`: the element `k` places from
the end, raising `IndexError` when the series is too short. -/
def ilocNeg {α : Type} (xs : List α) (k : Nat) : Except String α :=
  match xs[xs.length - k]? with
  | some v => pure v
  | none => Except.error "IndexError"

/-- Index of the last non-NaN cell of a column
(`Series.last_valid_index()`). -/
def lastValidIndex (cells : List (Option PyVal)) : Option Nat :=
  (cells.reverse.findIdx? Option.isSome).map (fun i => cells.length - 1 - i)

/-- Lookup in a Python dict rendered as an ordered association list. -/
def dictGet? (entries : List (String × PyVal)) (k : String) : Option PyVal :=
  (entries.find? (fun e => e.1 = k)).map (fun e => e.2)

/-- Python dict assignment `d[k] = v`: replaces in place when the key is
present, appends otherwise. -/
def dictInsert (entries : List (String × PyVal)) (k : String) (v : PyVal) :
    List (String × PyVal) :=
  if (entries.find? (fun e => e.1 = k)).isSome then
    entries.map (fun e => if e.1 = k then (k, v) else e)
  else entries ++ [(k, v)]

/-- Python `d.pop(k)` preceded by a `k in d` test: the popped value (if any)
and the remaining dict. -/
def dictPop (entries : List (String × PyVal)) (k : String) :
    Option PyVal × List (String × PyVal) :=
  match entries.find? (fun e => e.1 = k) with
  | some e => (some e.2, entries.filter (fun e2 => ¬ (e2.1 = k)))
  | none => (none, entries)

/-- Column lookup `df[name]` on a parsed table (`[]` for a missing column
never occurs on the paths that use it after a successful search). -/
def tableColumn (df : Table) (name : String) : List (Option PyVal) :=
  ((df.find? (fun c => c.1 = name)).map (fun c => c.2)).getD []

/-- `_safe_get_fred_series` (lines 955-960): a raised provider error is
caught and logged, surfacing as Python `None` (here `Option.none`). -/
def _safe_get_fred_series (env : Env) (series_id : String) : Option (List Obs) :=
  match env.fredSeries series_id with
  | .ok s => some s
  | .error _ => none

/-- `_download_file` (lines 962-985): `True` on an HTTP 200 download, a
raised non-200 status or network error being caught into `None`. -/
def _download_file (env : Env) (url : String) (_temp_filename : String) : PyVal :=
  pyTry
    (match env.httpStatus url with
      | .ok status =>
          if status ≠ 200 then Except.error "Failed to fetch data"
          else pure (PyVal.bool true)
      | .error e => Except.error e)
    PyVal.null

/-- `_get_ticker_info` (lines 186-203): one Yahoo Finance info lookup; a
falsy value yields `None`, a raised error is caught into `None`. -/
def _get_ticker_info (env : Env) (symbol _description info_field : String) : PyVal :=
  pyTry
    (do
      let value ← env.tickerInfo symbol info_field
      if truthy value then do
        let f ← pyFloat env value
        pure (PyVal.num f)
      else
        pure PyVal.null)
    PyVal.null

/-- `get_pe_ratio` (lines 178-184). -/
def get_pe_ratio (env : Env) : PyVal :=
  _get_ticker_info env "VTI" "P/E ratio" "trailingPE"

def shillerUrl : String := "http://www.econ.yale.edu/~shiller/data/ie_data.xls"

/-- `get_cape_ratio` (lines 205-253): Shiller spreadsheet download, CAPE
column search, last non-NaN value; every failure is caught into `None`. -/
def get_cape_ratio (env : Env) : PyVal :=
  pyTry
    (do
      if ¬ truthy (_download_file env shillerUrl "shiller_temp.xls") then
        pure PyVal.null
      else do
        let df ← env.readExcel "shiller_temp.xls"
        let cape_column := (df.map Prod.fst).find? (fun col => strContains (strUpper col) "CAPE")
        match cape_column with
        | none => Except.error "Could not find CAPE column in the data"
        | some c =>
          if c = "" then Except.error "Could not find CAPE column in the data"
          else do
            let nonNull := (tableColumn df c).filterMap id
            match nonNull.getLast? with
            | none => Except.error "IndexError"
            | some cape_value => do
              let f ← pyFloat env cape_value
              pure (PyVal.num f))
    PyVal.null

/-- The all-`None` group `get_credit_spreads` returns when an input series
is absent or empty (line 288). -/
def all_null_spread : PyVal :=
  PyVal.dict [("baa_yield", PyVal.null), ("treasury_10y", PyVal.null),
    ("baa_spread", PyVal.null)]

/-- `get_credit_spreads` (lines 276-308): BAA yield minus 10-year Treasury
yield; an absent or empty input series yields the all-`None` group. -/
def get_credit_spreads (env : Env) : PyVal :=
  pyTry
    (do
      let baa_yield := _safe_get_fred_series env "BAA"
      let treasury_10y := _safe_get_fred_series env "DGS10"
      match baa_yield, treasury_10y with
      | some b, some t =>
          if b.isEmpty ∨ t.isEmpty then pure all_null_spread
          else do
            let latest_baa ← ilocNeg b 1
            let latest_10y ← ilocNeg t 1
            let spread := latest_baa.2 - latest_10y.2
            pure (PyVal.dict [("baa_yield", PyVal.num latest_baa.2),
              ("treasury_10y", PyVal.num latest_10y.2),
              ("baa_spread", PyVal.num spread)])
      | _, _ => pure all_null_spread)
    PyVal.null

/-- `get_market_to_gdp` (lines 310-329). -/
def get_market_to_gdp (env : Env) : PyVal :=
  pyTry
    (do
      match _safe_get_fred_series env "DDDM01USA156NWDB" with
      | none => pure PyVal.null
      | some s =>
        if s.isEmpty then pure PyVal.null
        else do
          let latest ← ilocNeg s 1
          pure (PyVal.num latest.2))
    PyVal.null

/-- `get_gdp_metrics` (lines 331-355). -/
def get_gdp_metrics (env : Env) : PyVal :=
  pyTry
    (do
      let gdp := _safe_get_fred_series env "GDP"
      let gdp_growth := _safe_get_fred_series env "A191RL1Q225SBEA"
      match gdp, gdp_growth with
      | some g, some gr =>
        if g.isEmpty ∨ gr.isEmpty then
          pure (PyVal.dict [("gdp", PyVal.null), ("gdp_growth", PyVal.null)])
        else do
          let latest_gdp ← ilocNeg g 1
          let latest_growth ← ilocNeg gr 1
          pure (PyVal.dict [("gdp", PyVal.num latest_gdp.2),
            ("gdp_growth", PyVal.num latest_growth.2)])
      | _, _ => pure (PyVal.dict [("gdp", PyVal.null), ("gdp_growth", PyVal.null)]))
    PyVal.null

/-- `get_government_metrics` (lines 357-397): debt, deficit and a derived
debt-to-GDP percentage (the latter `None` when GDP is unavailable). -/
def get_government_metrics (env : Env) : PyVal :=
  pyTry
    (do
      let govt_debt := _safe_get_fred_series env "GFDEBTN"
      let govt_deficit := _safe_get_fred_series env "FYFSD"
      match govt_debt, govt_deficit with
      | some d, some f =>
        if d.isEmpty ∨ f.isEmpty then
          pure (PyVal.dict [("govt_debt", PyVal.null), ("govt_deficit", PyVal.null),
            ("debt_to_gdp", PyVal.null)])
        else do
          let latest_debt ← ilocNeg d 1
          let latest_deficit ← ilocNeg f 1
          let gdp := _safe_get_fred_series env "GDP"
          let debt_to_gdp : Option ℚ ←
            match gdp with
            | none => pure none
            | some g =>
              if g.isEmpty then pure none
              else do
                let latest_gdp ← ilocNeg g 1
                let r ← pyDiv latest_debt.2 latest_gdp.2
                pure (some (r * 100))
          pure (PyVal.dict [("govt_debt", PyVal.num latest_debt.2),
            ("govt_deficit", PyVal.num latest_deficit.2),
            ("debt_to_gdp", match debt_to_gdp with
              | some q => PyVal.num q
              | none => PyVal.null)])
      | _, _ => pure (PyVal.dict [("govt_debt", PyVal.null), ("govt_deficit", PyVal.null),
          ("debt_to_gdp", PyVal.null)]))
    PyVal.null

/-- `get_10yr_yield` (lines 399-417). -/
def get_10yr_yield (env : Env) : PyVal :=
  pyTry
    (do
      match _safe_get_fred_series env "DGS10" with
      | none => pure PyVal.null
      | some s =>
        if s.isEmpty then pure PyVal.null
        else do
          let latest ← ilocNeg s 1
          pure (PyVal.num latest.2))
    PyVal.null

/-- `get_inflation_rate` (lines 419-440): year-over-year CPI change.  Fewer
than 13 monthly observations yield `None`; the division itself carries no
non-positive-denominator guard. -/
def get_inflation_rate (env : Env) : PyVal :=
  pyTry
    (do
      match _safe_get_fred_series env "CPIAUCSL" with
      | none => pure PyVal.null
      | some cpi =>
        if cpi.isEmpty ∨ cpi.length < 13 then pure PyVal.null
        else do
          let latest_cpi ← ilocNeg cpi 1
          let year_ago_cpi ← ilocNeg cpi 13
          let r ← pyDiv latest_cpi.2 year_ago_cpi.2
          pure (PyVal.num ((r - 1) * 100)))
    PyVal.null

/-- `get_asset_price` (lines 450-468). -/
def get_asset_price (env : Env) (ticker_symbol _asset_name _unit : String) : PyVal :=
  pyTry
    (do
      let price ← env.tickerInfo ticker_symbol "regularMarketPrice"
      if truthy price then do
        let f ← pyFloat env price
        pure (PyVal.num f)
      else
        pure PyVal.null)
    PyVal.null

/-- `get_gold_price` (lines 470-472). -/
def get_gold_price (env : Env) : PyVal :=
  get_asset_price env "GC=F" "Gold" "per troy ounce"

/-- `get_bitcoin_price` (lines 474-476). -/
def get_bitcoin_price (env : Env) : PyVal :=
  get_asset_price env "BTC-USD" "Bitcoin" ""

/-- `get_wti_crude_price` (lines 478-480). -/
def get_wti_crude_price (env : Env) : PyVal :=
  get_asset_price env "CL=F" "WTI Crude Oil" "per barrel"

/-- `_calculate_equity_risk_premium` (lines 557-593): the derived fallback
for the equity risk premium.  `get_pe_ratio` produces only a number or
`None`, so the `if pe_ratio and pe_ratio > 0:` test short-circuits exactly
as modelled; a non-positive ratio or missing risk-free rate yields
`{'value': None}`. -/
def _calculate_equity_risk_premium (env : Env) : PyVal :=
  pyTry
    (do
      let pe_ratio := get_pe_ratio env
      let earnings_yield : Option ℚ :=
        match pe_ratio with
        | .num q => if q ≠ 0 ∧ 0 < q then some ((1 / q) * 100) else none
        | _ => none
      match earnings_yield with
      | none => pure (PyVal.dict [("value", PyVal.null)])
      | some ey =>
        match get_10yr_yield env with
        | PyVal.null => pure (PyVal.dict [("value", PyVal.null)])
        | PyVal.num rf =>
            pure (PyVal.dict [("value", PyVal.num (ey - rf)),
              ("earnings_yield", PyVal.num ey),
              ("risk_free_rate", PyVal.num rf)])
        | _ => Except.error "TypeError")
    PyVal.null

def damodaranUrl : String := "https://pages.stern.nyu.edu/~adamodar/pc/implprem/ERPbymonth.xlsx"

/-- `get_equity_risk_premium` (lines 482-555): Damodaran spreadsheet
download with fallback to the derived computation when openpyxl is missing
or the download fails; a found but non-coercible string cell is retried
with its percent sign stripped. -/
def get_equity_risk_premium (env : Env) : PyVal :=
  pyTry
    (do
      if ¬ env.openpyxlInstalled then
        pure (_calculate_equity_risk_premium env)
      else if ¬ truthy (_download_file env damodaranUrl "damodaran_temp.xlsx") then
        pure (_calculate_equity_risk_premium env)
      else do
        let df ← env.readExcel "damodaran_temp.xlsx"
        let erp_column := (df.map Prod.fst).find? (fun col => strContains (strUpper col) "ERP")
        match erp_column with
        | none => Except.error "Could not find ERP column in the data"
        | some c =>
          if c = "" then Except.error "Could not find ERP column in the data"
          else do
            let cells := tableColumn df c
            match lastValidIndex cells with
            | none => Except.error "KeyError"
            | some idx => do
              let cellv ←
                match cells[idx]? with
                | some (some v) => pure v
                | _ => Except.error "KeyError"
              let erp_value ←
                match pyFloat env cellv with
                | .ok q => pure (PyVal.num q)
                | .error _ =>
                  match cellv with
                  | .str s =>
                    match env.pyFloatStr (strStrip (stripPercentSign s)) with
                    | some q => pure (PyVal.num q)
                    | none => Except.error "Invalid ERP value format"
                  | other => pure other
              let first_col_cells := ((df.head?).map Prod.snd).getD []
              let last_date ←
                match first_col_cells[idx]? with
                | some (some v) => pure (pyStr v)
                | some none => pure "nan"
                | none => Except.error "IndexError"
              pure (PyVal.dict [("value", erp_value), ("date", PyVal.str last_date)]))
    PyVal.null

/-- `get_earnings_growth` (lines 595-641): year-over-year corporate-profit
growth from quarterly data; fewer than 5 observations or a non-positive
year-ago value yield `{'growth_rate': None}`. -/
def get_earnings_growth (env : Env) : PyVal :=
  pyTry
    (do
      let corporate_profits ← env.fredSeries "CP"
      if corporate_profits.length < 5 then
        pure (PyVal.dict [("growth_rate", PyVal.null)])
      else do
        let recent ← ilocNeg corporate_profits 1
        let year_ago ← ilocNeg corporate_profits 5
        if year_ago.2 ≤ 0 then
          pure (PyVal.dict [("growth_rate", PyVal.null)])
        else do
          let r ← pyDiv recent.2 year_ago.2
          let growth_rate := (r - 1) * 100
          pure (PyVal.dict [("growth_rate", PyVal.num growth_rate),
            ("recent_value", PyVal.num recent.2),
            ("year_ago_value", PyVal.num year_ago.2),
            ("recent_date", PyVal.str recent.1),
            ("year_ago_date", PyVal.str year_ago.1)]))
    PyVal.null

/-- The resolver slot of one catalog entry; `allMetrics` is the synthetic
aggregate whose resolver is `get_all_metrics` itself. -/
inductive ResolverTag where
  | peRatio | capeRatio | creditSpreads | marketToGdp | gdpMetrics | governmentMetrics
  | tenYrYield | inflationRate | equityRiskPremium | earningsGrowth
  | goldPrice | bitcoinPrice | wtiCrudePrice | allMetrics
  deriving Repr, DecidableEq

/-- `get_metric_definitions` (lines 698-715): the indicator catalog, in
registration order, mapping each display name to its resolver and source
label. -/
def get_metric_definitions : List (String × ResolverTag × String) := [
  ("US P/E Ratio", ResolverTag.peRatio, "Yahoo Finance - VTI (Total US Market)"),
  ("US CAPE Ratio", ResolverTag.capeRatio, "Robert Shiller\x27s Dataset"),
  ("US Credit Spreads", ResolverTag.creditSpreads, "FRED - Moody\x27s BAA Corporate Bond"),
  ("US Stock Market / GDP", ResolverTag.marketToGdp, "FRED - Stock Market Capitalization to GDP"),
  ("US GDP", ResolverTag.gdpMetrics, "FRED - Bureau of Economic Analysis"),
  ("US Government Debt & Deficit", ResolverTag.governmentMetrics, "FRED - Treasury Department"),
  ("US 10-Year Yield", ResolverTag.tenYrYield, "FRED - Treasury Department"),
  ("US Inflation Rate", ResolverTag.inflationRate, "FRED - Bureau of Labor Statistics"),
  ("US Equity Risk Premium", ResolverTag.equityRiskPremium, "NYU Stern - Aswath Damodaran"),
  ("US Earnings Growth", ResolverTag.earningsGrowth, "FRED - Corporate Profits"),
  ("Gold Price", ResolverTag.goldPrice, "Yahoo Finance - Gold Futures (GC=F)"),
  ("Bitcoin Price", ResolverTag.bitcoinPrice, "Yahoo Finance - BTC-USD"),
  ("WTI Crude Oil Price", ResolverTag.wtiCrudePrice, "Yahoo Finance - Crude Oil Futures (CL=F)"),
  ("US All Metrics", ResolverTag.allMetrics, "Multiple Sources")]

/-- `_normalize_metric_name` (lines 668-696): display name to flat key. -/
def _normalize_metric_name (metric_name : String) : String :=
  if metric_name = "US P/E Ratio" then "pe_ratio"
  else if metric_name = "US CAPE Ratio" then "cape_ratio"
  else if metric_name = "US Credit Spreads" then "credit_spreads"
  else if metric_name = "US Stock Market / GDP" then "market_to_gdp"
  else if metric_name = "US GDP" then "gdp"
  else if metric_name = "US Government Debt & Deficit" then "government"
  else if metric_name = "US 10-Year Yield" then "10yr_yield"
  else if metric_name = "US Inflation Rate" then "inflation_rate"
  else if metric_name = "US Equity Risk Premium" then "equity_risk_premium"
  else if metric_name = "US Earnings Growth" then "earnings_growth"
  else if metric_name = "Gold Price" then "gold_price"
  else if metric_name = "Bitcoin Price" then "bitcoin_price"
  else if metric_name = "WTI Crude Oil Price" then "wti_crude_price"
  else spacesToUnderscores (strLower metric_name)

/-- The thirteen non-aggregate resolvers, dispatched by tag.  The
`allMetrics` slot is never dispatched through this function: the aggregate
loop of `get_all_metrics` filters that entry out by name before invoking
resolvers. -/
def run_base_resolver (env : Env) : ResolverTag → PyVal
  | .peRatio => get_pe_ratio env
  | .capeRatio => get_cape_ratio env
  | .creditSpreads => get_credit_spreads env
  | .marketToGdp => get_market_to_gdp env
  | .gdpMetrics => get_gdp_metrics env
  | .governmentMetrics => get_government_metrics env
  | .tenYrYield => get_10yr_yield env
  | .inflationRate => get_inflation_rate env
  | .equityRiskPremium => get_equity_risk_premium env
  | .earningsGrowth => get_earnings_growth env
  | .goldPrice => get_gold_price env
  | .bitcoinPrice => get_bitcoin_price env
  | .wtiCrudePrice => get_wti_crude_price env
  | .allMetrics => PyVal.null

/-- The merge step of the `get_all_metrics` loop (lines 650-664): a dict
containing `'value'` collapses to that entry under the normalized name,
any other dict merges its own keys unprefixed, a scalar lands under the
normalized name, and a raised resolver fault is caught into a `None` entry
under the normalized name. -/
def merge_metric_result (metrics : List (String × PyVal)) (metric_name : String)
    (result : Except String PyVal) : List (String × PyVal) :=
  match result with
  | .error _ => dictInsert metrics (_normalize_metric_name metric_name) PyVal.null
  | .ok r =>
    match r with
    | PyVal.dict entries =>
      if (entries.find? (fun e => e.1 = "value")).isSome then
        dictInsert metrics (_normalize_metric_name metric_name)
          ((dictGet? entries "value").getD PyVal.null)
      else
        entries.foldl (fun m e => dictInsert m e.1 e.2) metrics
    | other => dictInsert metrics (_normalize_metric_name metric_name) other

/-- The `get_all_metrics` iteration (lines 643-666) over an arbitrary
resolver runner, skipping the synthetic aggregate entry by name. -/
def get_all_metrics_over (defs : List (String × ResolverTag × String))
    (run : ResolverTag → Except String PyVal) : List (String × PyVal) :=
  defs.foldl
    (fun metrics entry =>
      if entry.1 = "US All Metrics" then metrics
      else merge_metric_result metrics entry.1 (run entry.2.1))
    []

/-- `get_all_metrics` (lines 643-666), instantiated with the real catalog
and resolvers (which, being wrapped in their own handlers, never raise). -/
def get_all_metrics (env : Env) : PyVal :=
  PyVal.dict (get_all_metrics_over get_metric_definitions
    (fun t => Except.ok (run_base_resolver env t)))

/-- Dispatch of any catalog entry's resolver, the synthetic aggregate
included. -/
def run_resolver (env : Env) : ResolverTag → PyVal
  | .allMetrics => get_all_metrics env
  | t => run_base_resolver env t

/-- `series.index[-1].strftime('%Y-%m-%d')`: the date of the last
observation, raising `IndexError` on an empty series. -/
def idx_last (s : List Obs) : Except String String :=
  match s.getLast? with
  | some o => pure o.1
  | none => Except.error "IndexError"

/-- Python `int()` on a number: truncation toward zero. -/
def pyIntTrunc (q : ℚ) : ℤ := if 0 ≤ q then q.floor else -((-q).floor)

/-- Two-digit zero padding of `strftime`. -/
def pad2 (n : ℕ) : String := if n < 10 then "0" ++ toString n else toString n

/-- A `'%Y-%m-%d'` rendering. -/
def fmtDate (y : ℤ) (m d : ℕ) : String := toString y ++ "-" ++ pad2 m ++ "-" ++ pad2 d

/-- The inner `try:` of the CAPE timestamp branch (lines 758-770): Shiller
sheet read, last valid CAPE row, decimal-year date cell converted to a
calendar date.  `round` here rounds halves up where Python rounds them to
even; no half-integer ever reaches it in the claims.  A `datetime` out of
range raises `ValueError`. -/
def cape_timestamp_inner (env : Env) : Except String String := do
  let df ← env.readExcel shillerUrl
  let capeCells ←
    match df.find? (fun c => c.1 = "CAPE") with
    | some c => pure c.2
    | none => Except.error "KeyError"
  let lvi ←
    match lastValidIndex capeCells with
    | some i => pure i
    | none => Except.error "KeyError"
  let dateCells ←
    match df.find? (fun c => c.1 = "Date") with
    | some c => pure c.2
    | none => Except.error "KeyError"
  let last_date ←
    match dateCells[lvi]? with
    | some (some v) => pure v
    | _ => Except.error "KeyError"
  match last_date with
  | PyVal.num dec =>
      let year := pyIntTrunc dec
      let month : ℤ := round ((dec - year) * 12) + 1
      if month < 1 ∨ 12 < month ∨ year < 1 ∨ 9999 < year then
        Except.error "ValueError"
      else
        pure (fmtDate year month.toNat 1)
  | _ => Except.error "ValueError"

/-- The `try:` body of `get_timestamp_for_metric` (lines 744-776): the
per-indicator timestamp strategy, before the enclosing handler. -/
def timestamp_body (env : Env) (metric_name : String) : Except String String :=
  if metric_name = "US GDP" then do
    let gdp ← env.fredSeries "GDP"
    idx_last gdp
  else if metric_name = "US Government Debt & Deficit" then do
    let debt ← env.fredSeries "GFDEBTN"
    idx_last debt
  else if metric_name = "US Inflation Rate" then do
    let cpi ← env.fredSeries "CPIAUCSL"
    idx_last cpi
  else if metric_name = "US Credit Spreads" then do
    let baa ← env.fredSeries "BAA"
    idx_last baa
  else if metric_name = "US CAPE Ratio" then
    match cape_timestamp_inner env with
    | .ok s => pure s
    | .error _ => do
        let cape ← env.fredSeries "CSUSHPINSA"
        idx_last cape
  else
    pure env.today

/-- `get_timestamp_for_metric` (lines 742-778): the strategy above with its
enclosing handler, whose fallback literal is `'Date not available'`. -/
def get_timestamp_for_metric (env : Env) (metric_name : String) : String :=
  match timestamp_body env metric_name with
  | .ok s => s
  | .error _ => "Date not available"

/-- One flattened export row of the fixed 6-column schema. -/
structure ExportRow where
  metric : String
  sub_metric : String
  value : PyVal
  timestamp : PyVal
  source : PyVal
  retrieval_time : String
  deriving Repr

/-- One line of the sink, as the csv writer emits it: the header line
`metric,sub_metric,value,timestamp,source,retrieval_time` or a data row. -/
inductive CsvLine where
  | header
  | data (row : ExportRow)
  deriving Repr

/-- The exporter-relevant state of a `USMarketMetrics` instance and its
sink: whether `csv_export_path` is set, the `csv_headers_written` flag, and
the sink's lines (`none` meaning no file exists at the path). -/
structure CsvState where
  csv_export_enabled : Bool
  csv_headers_written : Bool
  sink : Option (List CsvLine)
  deriving Repr

/-- The flatten step of `_export_to_csv` (lines 107-154): metadata popped
(with defaults), then one row per leaf value — `sub_metric` is `"value"`
for a single-value record, the key for a flat entry, and
`"<key>_<subkey>"` for a nested entry. -/
def export_rows (env : Env) (metric_name : String)
    (data_copy : List (String × PyVal)) : List ExportRow :=
  let p1 := dictPop data_copy "timestamp"
  let timestamp := p1.1.getD (PyVal.str env.today)
  let p2 := dictPop p1.2 "source"
  let source := p2.1.getD (PyVal.str "Unknown")
  let d := p2.2
  if d.length = 1 ∧ (d.find? (fun e => e.1 = "value")).isSome then
    [⟨metric_name, "value", (dictGet? d "value").getD PyVal.null, timestamp, source, env.nowStr⟩]
  else
    (d.map (fun e =>
      match e.2 with
      | PyVal.dict sub =>
          sub.map (fun s =>
            ⟨metric_name, e.1 ++ "_" ++ s.1, s.2, timestamp, source, env.nowStr⟩)
      | v => [⟨metric_name, e.1, v, timestamp, source, env.nowStr⟩])).flatten

/-- `_export_to_csv` (lines 101-176): flatten and append, writing the
header line first iff the sink holds no data or this instance has not yet
written one.  `ioFail` models the file operation raising; the handler
catches it, logs, and leaves the state — the export path included —
unchanged. -/
def _export_to_csv (env : Env) (ioFail : Bool) (st : CsvState) (metric_name : String)
    (data : PyVal) : CsvState :=
  if ¬ st.csv_export_enabled then st
  else
    match data with
    | PyVal.dict entries =>
      if ioFail then st
      else
        let rows := export_rows env metric_name entries
        let file_exists : Bool := match st.sink with
          | some ls => ! ls.isEmpty
          | none => false
        let write_header : Bool := (! file_exists) || (! st.csv_headers_written)
        let newLines := st.sink.getD [] ++
          (if write_header then [CsvLine.header] else []) ++ rows.map CsvLine.data
        { st with
          sink := some newLines
          csv_headers_written := st.csv_headers_written || write_header }
    | _ => st

/-- `_initialize_csv_export` (lines 79-99): records that a sink already
holding data needs no further header; an initialization failure disables
CSV export for the instance. -/
def _initialize_csv_export (ioFail : Bool) (st : CsvState) : CsvState :=
  if ioFail then { st with csv_export_enabled := false }
  else
    let file_empty := match st.sink with
      | some ls => ls.isEmpty
      | none => true
    if file_empty then st else { st with csv_headers_written := true }

/-- The constructor (lines 23-52) restricted to its exporter state: the
`csv_headers_written` flag starts `False`, and `_initialize_csv_export`
runs iff an export path was given. -/
def mkUSMarketMetrics (pathGiven : Bool) (sink0 : Option (List CsvLine)) (ioFail : Bool) :
    CsvState :=
  let st : CsvState := ⟨pathGiven, false, sink0⟩
  if pathGiven then _initialize_csv_export ioFail st else st

/-- A sequence of export calls against one instance, each item carrying its
own failure flag, record name and record. -/
def exportSeq (env : Env) (st : CsvState) (items : List (Bool × String × PyVal)) : CsvState :=
  items.foldl (fun s it => _export_to_csv env it.1 s it.2.1 it.2.2) st

/-- `get_metric_by_name` (lines 717-740): catalog lookup — raising
`KeyError` for an unregistered name — then resolver invocation,
canonicalization with timestamp and source, and optional CSV export. -/
def get_metric_by_name (env : Env) (ioFail : Bool) (st : CsvState) (metric_name : String) :
    Except PyErr (PyVal × CsvState) :=
  match get_metric_definitions.find? (fun e => e.1 = metric_name) with
  | none => Except.error (PyErr.keyError metric_name)
  | some entry =>
    let result := run_resolver env entry.2.1
    let result2 : PyVal :=
      match result with
      | PyVal.dict entries =>
          PyVal.dict (dictInsert (dictInsert entries "timestamp"
            (PyVal.str (get_timestamp_for_metric env metric_name))) "source"
            (PyVal.str entry.2.2))
      | other =>
          PyVal.dict [("value", other), ("timestamp", PyVal.str env.today),
            ("source", PyVal.str entry.2.2)]
    let st2 := if st.csv_export_enabled then _export_to_csv env ioFail st metric_name result2
      else st
    Except.ok (result2, st2)

/-- An environment in which every provider call raises: the network is
down, nothing parses, the clock is fixed. -/
def envAllFail : Env where
  tickerInfo := fun _ _ => Except.error "network unreachable"
  fredSeries := fun _ => Except.error "network unreachable"
  httpStatus := fun _ => Except.error "network unreachable"
  readExcel := fun _ => Except.error "no file"
  pyFloatStr := fun _ => none
  openpyxlInstalled := true
  today := "2026-10-12"
  nowStr := "2026-10-12 00:00:00"

/-- An environment in which only the VTI trailing P/E quote and the DGS10
series answer, so the equity-risk-premium resolver takes its derived
fallback path. -/
def envErpFallback : Env where
  tickerInfo := fun sym field =>
    if sym = "VTI" ∧ field = "trailingPE" then Except.ok (PyVal.num 20)
    else Except.error "network unreachable"
  fredSeries := fun sid =>
    if sid = "DGS10" then Except.ok [("2026-10-01", 4)]
    else Except.error "network unreachable"
  httpStatus := fun _ => Except.error "network unreachable"
  readExcel := fun _ => Except.error "no file"
  pyFloatStr := fun _ => none
  openpyxlInstalled := true
  today := "2026-10-12"
  nowStr := "2026-10-12 00:00:00"

/-- A CPI series of exactly 12 monthly observations. -/
def cpi12 : List Obs :=
  [("2025-10-01", 100), ("2025-11-01", 101), ("2025-12-01", 102), ("2026-01-01", 103),
   ("2026-02-01", 104), ("2026-03-01", 105), ("2026-04-01", 106), ("2026-05-01", 107),
   ("2026-06-01", 108), ("2026-07-01", 109), ("2026-08-01", 109), ("2026-09-01", 110)]

/-- A CPI series of exactly 13 monthly observations, first value 100 and
last value 110. -/
def cpi13 : List Obs :=
  [("2025-09-01", 100), ("2025-10-01", 101), ("2025-11-01", 102), ("2025-12-01", 103),
   ("2026-01-01", 104), ("2026-02-01", 105), ("2026-03-01", 106), ("2026-04-01", 107),
   ("2026-05-01", 108), ("2026-06-01", 109), ("2026-07-01", 109), ("2026-08-01", 109),
   ("2026-09-01", 110)]

/-- A CPI series of 13 observations whose year-ago value is negative. -/
def cpiNeg : List Obs :=
  [("2025-09-01", -100), ("2025-10-01", 1), ("2025-11-01", 1), ("2025-12-01", 1),
   ("2026-01-01", 1), ("2026-02-01", 1), ("2026-03-01", 1), ("2026-04-01", 1),
   ("2026-05-01", 1), ("2026-06-01", 1), ("2026-07-01", 1), ("2026-08-01", 1),
   ("2026-09-01", 110)]

/-- An environment whose only answering provider is the CPI series. -/
def envCpi (s : List Obs) : Env where
  tickerInfo := fun _ _ => Except.error "network unreachable"
  fredSeries := fun sid =>
    if sid = "CPIAUCSL" then Except.ok s else Except.error "network unreachable"
  httpStatus := fun _ => Except.error "network unreachable"
  readExcel := fun _ => Except.error "no file"
  pyFloatStr := fun _ => none
  openpyxlInstalled := true
  today := "2026-10-12"
  nowStr := "2026-10-12 00:00:00"

/-- An environment answering the BAA and DGS10 series with last values 6.50
and 4.20. -/
def envSpread : Env where
  tickerInfo := fun _ _ => Except.error "network unreachable"
  fredSeries := fun sid =>
    if sid = "BAA" then Except.ok [("2026-09-01", 6.4), ("2026-10-01", 6.5)]
    else if sid = "DGS10" then Except.ok [("2026-09-01", 4.1), ("2026-10-01", 4.2)]
    else Except.error "network unreachable"
  httpStatus := fun _ => Except.error "network unreachable"
  readExcel := fun _ => Except.error "no file"
  pyFloatStr := fun _ => none
  openpyxlInstalled := true
  today := "2026-10-12"
  nowStr := "2026-10-12 00:00:00"

/-- An environment answering the BAA series but returning an empty DGS10
series. -/
def envSpreadEmpty10y : Env where
  tickerInfo := fun _ _ => Except.error "network unreachable"
  fredSeries := fun sid =>
    if sid = "BAA" then Except.ok [("2026-10-01", 6.5)]
    else if sid = "DGS10" then Except.ok []
    else Except.error "network unreachable"
  httpStatus := fun _ => Except.error "network unreachable"
  readExcel := fun _ => Except.error "no file"
  pyFloatStr := fun _ => none
  openpyxlInstalled := true
  today := "2026-10-12"
  nowStr := "2026-10-12 00:00:00"

/-- An environment returning an empty BAA series while the DGS10 series
answers. -/
def envSpreadEmptyBaa : Env where
  tickerInfo := fun _ _ => Except.error "network unreachable"
  fredSeries := fun sid =>
    if sid = "BAA" then Except.ok []
    else if sid = "DGS10" then Except.ok [("2026-10-01", 4.2)]
    else Except.error "network unreachable"
  httpStatus := fun _ => Except.error "network unreachable"
  readExcel := fun _ => Except.error "no file"
  pyFloatStr := fun _ => none
  openpyxlInstalled := true
  today := "2026-10-12"
  nowStr := "2026-10-12 00:00:00"

/-- An environment whose BAA provider raises while the DGS10 series
answers. -/
def envSpreadNoBaa : Env where
  tickerInfo := fun _ _ => Except.error "network unreachable"
  fredSeries := fun sid =>
    if sid = "DGS10" then Except.ok [("2026-10-01", 4.2)]
    else Except.error "network unreachable"
  httpStatus := fun _ => Except.error "network unreachable"
  readExcel := fun _ => Except.error "no file"
  pyFloatStr := fun _ => none
  openpyxlInstalled := true
  today := "2026-10-12"
  nowStr := "2026-10-12 00:00:00"

/-- The names registered in the catalog, in registration order. -/
def catalog_names : List String := get_metric_definitions.map Prod.fst

theorem find_key_eq_none_iff {α : Type} (l : List (String × α)) (k : String) :
    l.find? (fun e => e.1 = k) = none ↔ k ∉ l.map Prod.fst := by
  rw [List.find?_eq_none]
  constructor
  · intro h hk
    obtain ⟨e, he, heq⟩ := List.mem_map.mp hk
    have := h e he
    simp only [decide_eq_true_eq] at this
    exact this heq
  · intro h e he
    simp only [decide_eq_true_eq]
    intro heq
    exact h (List.mem_map.mpr ⟨e, he, heq⟩)

theorem mem_keys_dictInsert_self (entries : List (String × PyVal)) (k : String) (v : PyVal) :
    k ∈ (dictInsert entries k v).map Prod.fst := by
  unfold dictInsert
  by_cases h : (entries.find? (fun e => e.1 = k)).isSome
  · rw [if_pos h]
    obtain ⟨e, he⟩ := Option.isSome_iff_exists.mp h
    have hp := List.find?_some he
    have hm := List.mem_of_find?_eq_some he
    simp only [decide_eq_true_eq] at hp
    have hmem : (k, v) ∈ entries.map (fun e => if e.1 = k then (k, v) else e) :=
      List.mem_map.mpr ⟨e, hm, by rw [if_pos hp]⟩
    exact List.mem_map.mpr ⟨(k, v), hmem, rfl⟩
  · rw [if_neg h]
    simp

theorem mem_keys_dictInsert_mono (entries : List (String × PyVal)) (k k2 : String) (v : PyVal)
    (h : k ∈ entries.map Prod.fst) : k ∈ (dictInsert entries k2 v).map Prod.fst := by
  unfold dictInsert
  by_cases hf : (entries.find? (fun e => e.1 = k2)).isSome
  · rw [if_pos hf]
    obtain ⟨e, he, hek⟩ := List.mem_map.mp h
    by_cases hk : e.1 = k2
    · refine List.mem_map.mpr ⟨(k2, v), List.mem_map.mpr ⟨e, he, by rw [if_pos hk]⟩, ?_⟩
      rw [← hek, hk]
    · exact List.mem_map.mpr ⟨e, List.mem_map.mpr ⟨e, he, by rw [if_neg hk]⟩, hek⟩
  · rw [if_neg hf]
    rw [List.map_append]
    exact List.mem_append.mpr (Or.inl h)

theorem keys_dictInsert_sub (entries : List (String × PyVal)) (k k2 : String) (v : PyVal)
    (h : k ∈ (dictInsert entries k2 v).map Prod.fst) :
    k ∈ entries.map Prod.fst ∨ k = k2 := by
  unfold dictInsert at h
  by_cases hf : (entries.find? (fun e => e.1 = k2)).isSome
  · rw [if_pos hf] at h
    obtain ⟨p, hp, hpk⟩ := List.mem_map.mp h
    obtain ⟨e, he, hemap⟩ := List.mem_map.mp hp
    by_cases hek : e.1 = k2
    · rw [if_pos hek] at hemap
      right
      rw [← hpk, ← hemap]
    · rw [if_neg hek] at hemap
      left
      exact List.mem_map.mpr ⟨e, he, by rw [hemap]; exact hpk⟩
  · rw [if_neg hf] at h
    rw [List.map_append] at h
    rcases List.mem_append.mp h with h1 | h2
    · exact Or.inl h1
    · right
      simpa using h2

theorem mem_keys_foldl_insert (entries : List (String × PyVal)) :
    ∀ (metrics : List (String × PyVal)) (k : String), k ∈ metrics.map Prod.fst →
    k ∈ (entries.foldl (fun m e => dictInsert m e.1 e.2) metrics).map Prod.fst := by
  induction entries with
  | nil => exact fun m k h => h
  | cons e t ih =>
      intro m k h
      exact ih _ k (mem_keys_dictInsert_mono _ _ _ _ h)

theorem mem_keys_merge_mono (metrics : List (String × PyVal)) (n : String)
    (r : Except String PyVal) (k : String) (h : k ∈ metrics.map Prod.fst) :
    k ∈ (merge_metric_result metrics n r).map Prod.fst := by
  cases r with
  | error e => exact mem_keys_dictInsert_mono _ _ _ _ h
  | ok v =>
      cases v with
      | dict entries =>
          simp only [merge_metric_result]
          split
          · exact mem_keys_dictInsert_mono _ _ _ _ h
          · exact mem_keys_foldl_insert _ _ _ h
      | null => exact mem_keys_dictInsert_mono _ _ _ _ h
      | bool b => exact mem_keys_dictInsert_mono _ _ _ _ h
      | num q => exact mem_keys_dictInsert_mono _ _ _ _ h
      | str s => exact mem_keys_dictInsert_mono _ _ _ _ h

theorem foldl_defs_mono (run : ResolverTag → Except String PyVal)
    (defs : List (String × ResolverTag × String)) :
    ∀ (m : List (String × PyVal)) (k : String), k ∈ m.map Prod.fst →
    k ∈ (defs.foldl (fun metrics entry =>
      if entry.1 = "US All Metrics" then metrics
      else merge_metric_result metrics entry.1 (run entry.2.1)) m).map Prod.fst := by
  induction defs with
  | nil => exact fun m k h => h
  | cons d t ih =>
      intro m k h
      simp only [List.foldl_cons]
      by_cases hd : d.1 = "US All Metrics"
      · rw [if_pos hd]
        exact ih m k h
      · rw [if_neg hd]
        exact ih _ k (mem_keys_merge_mono _ _ _ _ h)

theorem mem_keys_merge_error (metrics : List (String × PyVal)) (n msg : String) :
    _normalize_metric_name n ∈ (merge_metric_result metrics n (Except.error msg)).map Prod.fst := by
  simp only [merge_metric_result]
  exact mem_keys_dictInsert_self _ _ _

/-- C1: for every name registered in the catalog, `get_metric_by_name` returns
a canonical record — it never raises, whatever the providers, the exporter
state or the export outcome do; for any name not registered in the catalog it
raises the key-lookup error (`KeyError`) carrying that name. -/
theorem get_metric_by_name_total_on_catalog (env : Env) (ioFail : Bool) (st : CsvState)
    (metric_name : String) :
    (metric_name ∈ catalog_names →
      ∃ v st2, get_metric_by_name env ioFail st metric_name = Except.ok (v, st2)) ∧
    (metric_name ∉ catalog_names →
      get_metric_by_name env ioFail st metric_name =
        Except.error (PyErr.keyError metric_name)) := by
  constructor
  · intro hmem
    unfold get_metric_by_name
    cases hfind : get_metric_definitions.find? (fun e => e.1 = metric_name) with
    | none =>
        exact absurd hmem ((find_key_eq_none_iff get_metric_definitions metric_name).mp hfind)
    | some entry => exact ⟨_, _, rfl⟩
  · intro hnot
    unfold get_metric_by_name
    cases hfind : get_metric_definitions.find? (fun e => e.1 = metric_name) with
    | none => rfl
    | some entry =>
        exfalso
        have hp := List.find?_some hfind
        have hm := List.mem_of_find?_eq_some hfind
        simp only [decide_eq_true_eq] at hp
        exact hnot (List.mem_map.mpr ⟨entry, hm, hp⟩)

theorem get_metric_by_name_total_on_catalog_witness :
    ("US GDP" ∈ catalog_names ∧
      ∃ v st2, get_metric_by_name envAllFail false (mkUSMarketMetrics false none false)
        "US GDP" = Except.ok (v, st2)) ∧
    ("Uranium Price" ∉ catalog_names ∧
      get_metric_by_name envAllFail false (mkUSMarketMetrics false none false)
        "Uranium Price" = Except.error (PyErr.keyError "Uranium Price")) :=
  ⟨⟨by decide, (get_metric_by_name_total_on_catalog envAllFail false
      (mkUSMarketMetrics false none false) "US GDP").1 (by decide)⟩,
   ⟨by decide, (get_metric_by_name_total_on_catalog envAllFail false
      (mkUSMarketMetrics false none false) "Uranium Price").2 (by decide)⟩⟩

/-- C2: with every provider call failing, `get_all_metrics` still returns a
mapping carrying the normalized key(s) of every non-aggregate catalog
indicator, every value `None`; and, over an arbitrary resolver runner, an
uncaught fault from one indicator's resolver leaves a (null) entry under that
indicator's normalized name without aborting the batch — the loop is total
and the key survives the remaining merges. -/
theorem get_all_metrics_coverage (run : ResolverTag → Except String PyVal)
    (name : String) (tag : ResolverTag) (src msg : String) :
    get_all_metrics envAllFail = PyVal.dict [
      ("pe_ratio", PyVal.null), ("cape_ratio", PyVal.null),
      ("baa_yield", PyVal.null), ("treasury_10y", PyVal.null), ("baa_spread", PyVal.null),
      ("market_to_gdp", PyVal.null), ("gdp", PyVal.null), ("gdp_growth", PyVal.null),
      ("govt_debt", PyVal.null), ("govt_deficit", PyVal.null), ("debt_to_gdp", PyVal.null),
      ("10yr_yield", PyVal.null), ("inflation_rate", PyVal.null),
      ("equity_risk_premium", PyVal.null), ("earnings_growth", PyVal.null),
      ("gold_price", PyVal.null), ("bitcoin_price", PyVal.null),
      ("wti_crude_price", PyVal.null)] ∧
    (∀ metrics : List (String × PyVal),
      merge_metric_result metrics name (Except.error msg) =
        dictInsert metrics (_normalize_metric_name name) PyVal.null) ∧
    ((name, tag, src) ∈ get_metric_definitions → name ≠ "US All Metrics" →
      run tag = Except.error msg →
      _normalize_metric_name name ∈
        (get_all_metrics_over get_metric_definitions run).map Prod.fst) := by
  refine ⟨rfl, fun metrics => rfl, ?_⟩
  intro hmem hne hrun
  unfold get_all_metrics_over
  have main : ∀ (defs : List (String × ResolverTag × String))
      (m0 : List (String × PyVal)), (name, tag, src) ∈ defs →
      _normalize_metric_name name ∈
        (defs.foldl (fun metrics entry =>
          if entry.1 = "US All Metrics" then metrics
          else merge_metric_result metrics entry.1 (run entry.2.1)) m0).map Prod.fst := by
    intro defs
    induction defs with
    | nil => intro m0 h; exact absurd h (List.not_mem_nil _)
    | cons d t ih =>
        intro m0 hm
        simp only [List.foldl_cons]
        rcases List.mem_cons.mp hm with heq | hmem2
        · rw [← heq]
          rw [if_neg hne]
          refine foldl_defs_mono run t _ _ ?_
          rw [hrun]
          exact mem_keys_merge_error _ _ _
        · by_cases hd : d.1 = "US All Metrics"
          · rw [if_pos hd]; exact ih _ hmem2
          · rw [if_neg hd]; exact ih _ hmem2
  exact main get_metric_definitions [] hmem

theorem get_all_metrics_coverage_witness :
    ("US CAPE Ratio", ResolverTag.capeRatio, "Robert Shiller\x27s Dataset") ∈
      get_metric_definitions ∧
    _normalize_metric_name "US CAPE Ratio" ∈
      (get_all_metrics_over get_metric_definitions
        (fun _ => Except.error "provider down")).map Prod.fst :=
  ⟨by decide,
   (get_all_metrics_coverage (fun _ => Except.error "provider down")
     "US CAPE Ratio" ResolverTag.capeRatio "Robert Shiller\x27s Dataset" "provider down").2.2
     (by decide) (by decide) rfl⟩

/-- Whether a sink line is a data row (not the header). -/
def is_data_line : CsvLine → Bool
  | .header => false
  | .data _ => true

theorem export_step_appends (env : Env) (b : Bool) (n : String) (d : PyVal) (st : CsvState)
    (pre : List CsvLine) (hs : st.sink = some pre) (hne : pre ≠ [])
    (hw : st.csv_headers_written = true) :
    ∃ ds0, (_export_to_csv env b st n d).sink = some (pre ++ ds0) ∧
      ds0.all is_data_line = true ∧
      (_export_to_csv env b st n d).csv_headers_written = true := by
  unfold _export_to_csv
  by_cases he : st.csv_export_enabled
  · rw [if_neg (by simp [he])]
    cases d with
    | dict entries =>
        dsimp only
        by_cases hb : b
        · rw [if_pos hb]
          exact ⟨[], by simpa using hs, rfl, hw⟩
        · rw [if_neg hb]
          have hfe : (match st.sink with
              | some ls => !ls.isEmpty
              | none => false) = true := by
            rw [hs]
            simpa using hne
          rw [hfe, hw]
          refine ⟨(export_rows env n entries).map CsvLine.data, ?_, ?_, ?_⟩
          · simp [hs]
          · simp [List.all_map, is_data_line]
          · simp [hw]
    | null => exact ⟨[], by simpa using hs, rfl, hw⟩
    | bool b2 => exact ⟨[], by simpa using hs, rfl, hw⟩
    | num q => exact ⟨[], by simpa using hs, rfl, hw⟩
    | str s2 => exact ⟨[], by simpa using hs, rfl, hw⟩
  · rw [if_pos (by simp [he])]
    exact ⟨[], by simpa using hs, rfl, hw⟩

theorem export_step_fresh (env : Env) (b : Bool) (n : String) (d : PyVal) (st : CsvState)
    (hf : st.sink = none ∨ st.sink = some []) (_hw : st.csv_headers_written = false) :
    (_export_to_csv env b st n d = st) ∨
    (∃ ds, (_export_to_csv env b st n d).sink = some (CsvLine.header :: ds) ∧
      ds.all is_data_line = true ∧
      (_export_to_csv env b st n d).csv_headers_written = true) := by
  unfold _export_to_csv
  by_cases he : st.csv_export_enabled
  · rw [if_neg (by simp [he])]
    cases d with
    | dict entries =>
        dsimp only
        by_cases hb : b
        · rw [if_pos hb]; exact Or.inl rfl
        · rw [if_neg hb]
          have hfe : (match st.sink with
              | some ls => !ls.isEmpty
              | none => false) = false := by
            rcases hf with h | h <;> simp [h]
          rw [hfe]
          right
          refine ⟨(export_rows env n entries).map CsvLine.data, ?_, ?_, ?_⟩
          · rcases hf with h | h <;> simp [h]
          · simp [List.all_map, is_data_line]
          · simp
    | null => exact Or.inl rfl
    | bool b2 => exact Or.inl rfl
    | num q => exact Or.inl rfl
    | str s2 => exact Or.inl rfl
  · rw [if_pos (by simp [he])]
    exact Or.inl rfl


theorem exportSeq_appends (env : Env) :
    ∀ (items : List (Bool × String × PyVal)) (st : CsvState) (pre : List CsvLine),
    st.sink = some pre → pre ≠ [] → st.csv_headers_written = true →
    ∃ ds, (exportSeq env st items).sink = some (pre ++ ds) ∧ ds.all is_data_line = true ∧
      (exportSeq env st items).csv_headers_written = true := by
  intro items
  induction items with
  | nil =>
      intro st pre hs _hne hw
      exact ⟨[], by simpa [exportSeq] using hs, rfl, by simpa [exportSeq] using hw⟩
  | cons it t ih =>
      intro st pre hs hne hw
      obtain ⟨ds0, h1, h2, h3⟩ := export_step_appends env it.1 it.2.1 it.2.2 st pre hs hne hw
      have hne' : pre ++ ds0 ≠ [] := by
        intro hcon
        exact hne (List.append_eq_nil.mp hcon).1
      obtain ⟨ds1, g1, g2, g3⟩ := ih (_export_to_csv env it.1 st it.2.1 it.2.2) (pre ++ ds0) h1 hne' h3
      refine ⟨ds0 ++ ds1, ?_, ?_, ?_⟩
      · simp only [exportSeq, List.foldl_cons] at g1 ⊢
        rw [g1, List.append_assoc]
      · simp [List.all_append, h2, g2]
      · simpa only [exportSeq, List.foldl_cons] using g3

theorem exportSeq_fresh (env : Env) :
    ∀ (items : List (Bool × String × PyVal)) (st : CsvState),
    (st.sink = none ∨ st.sink = some []) → st.csv_headers_written = false →
    ((exportSeq env st items).sink = none ∨ (exportSeq env st items).sink = some [] ∨
      ∃ ds, (exportSeq env st items).sink = some (CsvLine.header :: ds) ∧
        ds.all is_data_line = true) := by
  intro items
  induction items with
  | nil =>
      intro st hf _hw
      rcases hf with h | h
      · exact Or.inl (by simpa [exportSeq] using h)
      · exact Or.inr (Or.inl (by simpa [exportSeq] using h))
  | cons it t ih =>
      intro st hf hw
      rcases export_step_fresh env it.1 it.2.1 it.2.2 st hf hw with heq | ⟨ds, h1, h2, h3⟩
      · simp only [exportSeq, List.foldl_cons, heq]
        exact ih st hf hw
      · obtain ⟨ds1, g1, g2, _⟩ := exportSeq_appends env t _ (CsvLine.header :: ds) h1
          (List.cons_ne_nil _ _) h3
        right; right
        refine ⟨ds ++ ds1, ?_, ?_⟩
        · simpa only [exportSeq, List.foldl_cons, List.cons_append] using g1
        · simp [List.all_append, h2, g2]

/-- C3: for any sequence of exports to one sink, a fresh (absent or empty)
sink ends up either untouched or holding exactly one header line followed
only by data lines; a sink already holding data (with the instance
initialized against it) only ever has data rows appended — the header is
never re-emitted. -/
theorem csv_header_written_once (env : Env) (items : List (Bool × String × PyVal))
    (fresh : Option (List CsvLine)) (prior : List CsvLine) :
    ((fresh = none ∨ fresh = some []) →
      ((exportSeq env (mkUSMarketMetrics true fresh false) items).sink = none ∨
       (exportSeq env (mkUSMarketMetrics true fresh false) items).sink = some [] ∨
       ∃ ds, (exportSeq env (mkUSMarketMetrics true fresh false) items).sink =
          some (CsvLine.header :: ds) ∧ ds.all is_data_line = true)) ∧
    (prior ≠ [] →
      ∃ ds, (exportSeq env (mkUSMarketMetrics true (some prior) false) items).sink =
          some (prior ++ ds) ∧ ds.all is_data_line = true) := by
  constructor
  · intro hf
    have hstart : (mkUSMarketMetrics true fresh false).sink = fresh ∧
        (mkUSMarketMetrics true fresh false).csv_headers_written = false := by
      rcases hf with h | h <;> subst h <;> exact ⟨rfl, rfl⟩
    exact exportSeq_fresh env items _ (by rw [hstart.1]; exact hf) hstart.2
  · intro hp
    have hstart : (mkUSMarketMetrics true (some prior) false).sink = some prior ∧
        (mkUSMarketMetrics true (some prior) false).csv_headers_written = true := by
      unfold mkUSMarketMetrics _initialize_csv_export
      simp [List.isEmpty_eq_true, hp]
    obtain ⟨ds, h1, h2, _⟩ := exportSeq_appends env items _ prior hstart.1 hp hstart.2
    exact ⟨ds, h1, h2⟩

theorem csv_header_written_once_witness :
    (some ([] : List CsvLine) = none ∨ some ([] : List CsvLine) = some []) ∧
    ((exportSeq envAllFail (mkUSMarketMetrics true (some []) false)
        [(false, "US GDP", PyVal.dict [("value", PyVal.num 3)])]).sink = none ∨
     (exportSeq envAllFail (mkUSMarketMetrics true (some []) false)
        [(false, "US GDP", PyVal.dict [("value", PyVal.num 3)])]).sink = some [] ∨
     ∃ ds, (exportSeq envAllFail (mkUSMarketMetrics true (some []) false)
        [(false, "US GDP", PyVal.dict [("value", PyVal.num 3)])]).sink =
          some (CsvLine.header :: ds) ∧ ds.all is_data_line = true) ∧
    ([CsvLine.data ⟨"US GDP", "value", PyVal.num 3, PyVal.str "2026-10-12",
        PyVal.str "S", "2026-10-12 00:00:00"⟩] ≠ ([] : List CsvLine) ∧
     ∃ ds, (exportSeq envAllFail (mkUSMarketMetrics true
        (some [CsvLine.data ⟨"US GDP", "value", PyVal.num 3, PyVal.str "2026-10-12",
          PyVal.str "S", "2026-10-12 00:00:00"⟩]) false)
        [(false, "US GDP", PyVal.dict [("value", PyVal.num 3)])]).sink =
          some ([CsvLine.data ⟨"US GDP", "value", PyVal.num 3, PyVal.str "2026-10-12",
            PyVal.str "S", "2026-10-12 00:00:00"⟩] ++ ds) ∧ ds.all is_data_line = true) :=
  ⟨Or.inr rfl,
   (csv_header_written_once envAllFail
      [(false, "US GDP", PyVal.dict [("value", PyVal.num 3)])] (some []) []).1 (Or.inr rfl),
   List.cons_ne_nil _ _,
   (csv_header_written_once envAllFail
      [(false, "US GDP", PyVal.dict [("value", PyVal.num 3)])] none
      [CsvLine.data ⟨"US GDP", "value", PyVal.num 3, PyVal.str "2026-10-12",
        PyVal.str "S", "2026-10-12 00:00:00"⟩]).2 (List.cons_ne_nil _ _)⟩

/-- A canonical record as it reaches the exporter. -/
def sampleRecord : PyVal := PyVal.dict [("value", PyVal.num 3),
  ("timestamp", PyVal.str "2026-10-01"), ("source", PyVal.str "FRED")]

/-- C4 counterexample: a failure inside `_export_to_csv` is caught, but the
sink handle is NOT disabled — the state is unchanged, `csv_export_path` is
still set, and a subsequent export call on the same instance writes to the
sink (it is not a no-op), contradicting the claim. -/
theorem export_failure_does_not_disable :
    (_export_to_csv envAllFail true (mkUSMarketMetrics true none false) "US GDP" sampleRecord
        = mkUSMarketMetrics true none false) ∧
    (_export_to_csv envAllFail true (mkUSMarketMetrics true none false) "US GDP"
        sampleRecord).csv_export_enabled = true ∧
    (_export_to_csv envAllFail false
        (_export_to_csv envAllFail true (mkUSMarketMetrics true none false) "US GDP"
          sampleRecord)
        "US GDP" sampleRecord).sink ≠
      (_export_to_csv envAllFail true (mkUSMarketMetrics true none false) "US GDP"
        sampleRecord).sink := by
  refine ⟨rfl, rfl, ?_⟩
  intro h
  rw [show (_export_to_csv envAllFail false
      (_export_to_csv envAllFail true (mkUSMarketMetrics true none false) "US GDP"
        sampleRecord) "US GDP" sampleRecord).sink =
    some [CsvLine.header, CsvLine.data ⟨"US GDP", "value", PyVal.num 3,
      PyVal.str "2026-10-01", PyVal.str "FRED", "2026-10-12 00:00:00"⟩] from rfl] at h
  rw [show (_export_to_csv envAllFail true (mkUSMarketMetrics true none false) "US GDP"
      sampleRecord).sink = none from rfl] at h
  exact Option.noConfusion h

/-- C4 amended: a failure during flatten-and-append inside `_export_to_csv`
is caught and logged and never propagates — the call returns with the state
(sink, flags, and the export path) unchanged — but the sink handle is not
disabled, so subsequent exports still attempt to write; disabling on error
happens only in `_initialize_csv_export`. -/
theorem export_failure_caught_but_not_disabled (env : Env) (st : CsvState) (name : String)
    (data : PyVal) :
    _export_to_csv env true st name data = st ∧
    (_initialize_csv_export true st).csv_export_enabled = false := by
  constructor
  · unfold _export_to_csv
    by_cases he : st.csv_export_enabled
    · rw [if_neg (by simp [he])]
      cases data <;> simp
    · rw [if_pos (by simp [he])]
  · rfl


theorem except_bind_ok {α β : Type} (a : α) (f : α → Except String β) :
    (Except.ok a : Except String α) >>= f = f a := rfl

/-- C5: with a CPI series of exactly 12 observations `get_inflation_rate`
returns `None` (below the 13-observation minimum); with 13 observations
whose first value is 100 and last value is 110 it returns exactly
`((110 / 100) - 1) * 100 = 10` percent. -/
theorem get_inflation_rate_yoy (env : Env) (s : List Obs)
    (hs : env.fredSeries "CPIAUCSL" = Except.ok s) :
    (s.length = 12 → get_inflation_rate env = PyVal.null) ∧
    (s.length = 13 → s.head?.map Prod.snd = some 100 → s.getLast?.map Prod.snd = some 110 →
      get_inflation_rate env = PyVal.num 10) := by
  have hsafe : _safe_get_fred_series env "CPIAUCSL" = some s := by
    unfold _safe_get_fred_series
    rw [hs]
  constructor
  · intro h12
    unfold get_inflation_rate
    rw [hsafe]
    dsimp only
    rw [if_pos (Or.inr (by omega))]
    rfl
  · intro h13 hhead hlast
    unfold get_inflation_rate
    rw [hsafe]
    dsimp only
    obtain ⟨oL, hoL, hoL2⟩ := Option.map_eq_some'.mp hlast
    obtain ⟨o0, ho0, ho02⟩ := Option.map_eq_some'.mp hhead
    rw [List.getLast?_eq_getElem?] at hoL
    rw [List.head?_eq_getElem?] at ho0
    have hne : s.isEmpty = false := by
      cases s with
      | nil => simp at h13
      | cons a t => rfl
    have hcond : ¬ (s.isEmpty = true ∨ s.length < 13) := by
      intro hor
      rcases hor with h | h
      · rw [hne] at h
        exact Bool.noConfusion h
      · omega
    rw [if_neg hcond]
    rw [show ilocNeg s 1 = Except.ok oL from by unfold ilocNeg; rw [hoL]; rfl]
    simp only [except_bind_ok]
    rw [show ilocNeg s 13 = Except.ok o0 from by
      unfold ilocNeg
      rw [show s.length - 13 = 0 from by omega]
      rw [ho0]; rfl]
    simp only [except_bind_ok]
    rw [hoL2, ho02]
    rw [show pyDiv 110 100 = Except.ok ((110 : ℚ) / 100) from by
      unfold pyDiv
      rw [if_neg (by norm_num)]; rfl]
    simp only [except_bind_ok]
    show PyVal.num ((110 / 100 - 1) * 100) = PyVal.num 10
    rw [show ((110 : ℚ) / 100 - 1) * 100 = 10 from by norm_num]


theorem get_inflation_rate_yoy_witness :
    ((envCpi cpi12).fredSeries "CPIAUCSL" = Except.ok cpi12 ∧ cpi12.length = 12 ∧
      get_inflation_rate (envCpi cpi12) = PyVal.null) ∧
    ((envCpi cpi13).fredSeries "CPIAUCSL" = Except.ok cpi13 ∧ cpi13.length = 13 ∧
      cpi13.head?.map Prod.snd = some 100 ∧ cpi13.getLast?.map Prod.snd = some 110 ∧
      get_inflation_rate (envCpi cpi13) = PyVal.num 10) :=
  ⟨⟨rfl, rfl, (get_inflation_rate_yoy (envCpi cpi12) cpi12 rfl).1 rfl⟩,
   ⟨rfl, rfl, rfl, rfl, (get_inflation_rate_yoy (envCpi cpi13) cpi13 rfl).2 rfl rfl rfl⟩⟩

/-- C6 counterexample: a 13-observation CPI series whose year-ago value is
`-100` (non-positive) makes `get_inflation_rate` perform the division and
return `-210.0`, not a null payload — the inflation computation has no
non-positive-denominator guard. -/
theorem inflation_negative_denominator_not_null :
    (envCpi cpiNeg).fredSeries "CPIAUCSL" = Except.ok cpiNeg ∧
    (∃ o, cpiNeg[cpiNeg.length - 13]? = some o ∧ o.2 ≤ 0) ∧
    get_inflation_rate (envCpi cpiNeg) = PyVal.num (-210) ∧
    get_inflation_rate (envCpi cpiNeg) ≠ PyVal.null := by
  have hval : get_inflation_rate (envCpi cpiNeg) =
      PyVal.num ((110 / (-100) - 1) * 100) := rfl
  refine ⟨rfl, ⟨("2025-09-01", -100), rfl, by norm_num⟩, ?_, ?_⟩
  · rw [hval]
    exact congrArg PyVal.num (by norm_num)
  · rw [hval]
    exact fun h => PyVal.noConfusion h

/-- C6 amended: the earnings-growth computation does guard a non-positive
prior-period value, returning `{'growth_rate': None}` without dividing; the
inflation computation has no such guard — with a negative prior-period CPI
value it performs the division and returns the computed percentage. -/
theorem yoy_denominator_guard (env : Env) (s t : List Obs) (o0 oL : Obs) :
    (env.fredSeries "CP" = Except.ok s → ¬ s.length < 5 →
      (∃ o, s[s.length - 5]? = some o ∧ o.2 ≤ 0) →
      get_earnings_growth env = PyVal.dict [("growth_rate", PyVal.null)]) ∧
    (env.fredSeries "CPIAUCSL" = Except.ok t → t.length = 13 →
      t[0]? = some o0 → t[12]? = some oL → o0.2 < 0 →
      get_inflation_rate env = PyVal.num ((oL.2 / o0.2 - 1) * 100)) := by
  constructor
  · intro hs hlen ⟨o, ho, ho2⟩
    unfold get_earnings_growth
    rw [hs]
    simp only [except_bind_ok]
    rw [if_neg hlen]
    have h1 : s.length - 1 < s.length := by omega
    rw [show ilocNeg s 1 = Except.ok (s[s.length - 1]) from by
      unfold ilocNeg
      rw [List.getElem?_eq_getElem h1]; rfl]
    simp only [except_bind_ok]
    rw [show ilocNeg s 5 = Except.ok o from by unfold ilocNeg; rw [ho]; rfl]
    simp only [except_bind_ok]
    rw [if_pos ho2]
    rfl
  · intro ht hlen h0 h12 hneg
    have hsafe : _safe_get_fred_series env "CPIAUCSL" = some t := by
      unfold _safe_get_fred_series
      rw [ht]
    unfold get_inflation_rate
    rw [hsafe]
    dsimp only
    have hne : t.isEmpty = false := by
      cases t with
      | nil => simp at hlen
      | cons a r => rfl
    have hcond : ¬ (t.isEmpty = true ∨ t.length < 13) := by
      intro hor
      rcases hor with h | h
      · rw [hne] at h
        exact Bool.noConfusion h
      · omega
    rw [if_neg hcond]
    rw [show ilocNeg t 1 = Except.ok oL from by
      unfold ilocNeg
      rw [show t.length - 1 = 12 from by omega]
      rw [h12]; rfl]
    simp only [except_bind_ok]
    rw [show ilocNeg t 13 = Except.ok o0 from by
      unfold ilocNeg
      rw [show t.length - 13 = 0 from by omega]
      rw [h0]; rfl]
    simp only [except_bind_ok]
    rw [show pyDiv oL.2 o0.2 = Except.ok (oL.2 / o0.2) from by
      unfold pyDiv
      rw [if_neg (by intro hz; rw [hz] at hneg; exact absurd hneg (by norm_num))]; rfl]
    simp only [except_bind_ok]
    rfl


/-- A quarterly corporate-profits series of 5 observations whose year-ago
value is negative. -/
def cp5 : List Obs :=
  [("2025-07-01", -50), ("2025-10-01", 10), ("2026-01-01", 11), ("2026-04-01", 12),
   ("2026-07-01", 13)]

/-- An environment whose only answering provider is the CP series. -/
def envCp (s : List Obs) : Env where
  tickerInfo := fun _ _ => Except.error "network unreachable"
  fredSeries := fun sid =>
    if sid = "CP" then Except.ok s else Except.error "network unreachable"
  httpStatus := fun _ => Except.error "network unreachable"
  readExcel := fun _ => Except.error "no file"
  pyFloatStr := fun _ => none
  openpyxlInstalled := true
  today := "2026-10-12"
  nowStr := "2026-10-12 00:00:00"

theorem yoy_denominator_guard_witness :
    ((envCp cp5).fredSeries "CP" = Except.ok cp5 ∧ ¬ cp5.length < 5 ∧
      get_earnings_growth (envCp cp5) = PyVal.dict [("growth_rate", PyVal.null)]) ∧
    ((envCpi cpiNeg).fredSeries "CPIAUCSL" = Except.ok cpiNeg ∧ cpiNeg.length = 13 ∧
      get_inflation_rate (envCpi cpiNeg) = PyVal.num ((110 / (-100) - 1) * 100)) :=
  ⟨⟨rfl, by decide,
    (yoy_denominator_guard (envCp cp5) cp5 [] ("x", 0) ("x", 0)).1 rfl (by decide)
      ⟨("2025-07-01", -50), rfl, by norm_num⟩⟩,
   ⟨rfl, rfl,
    (yoy_denominator_guard (envCpi cpiNeg) [] cpiNeg ("2025-09-01", -100)
      ("2026-09-01", 110)).2 rfl rfl rfl rfl (by norm_num)⟩⟩

/-- C7: with BAA last value 6.50 and 10-year last value 4.20,
`get_credit_spreads` returns the full group with spread 2.30; with either
input series empty or absent (raising) — the 10-year side or the BAA side —
it returns the all-null group, never a partial result. -/
theorem credit_spreads_composite (env : Env) (b t : List Obs) :
    (env.fredSeries "BAA" = Except.ok b → env.fredSeries "DGS10" = Except.ok t →
      b.getLast?.map Prod.snd = some 6.5 → t.getLast?.map Prod.snd = some 4.2 →
      get_credit_spreads env = PyVal.dict [("baa_yield", PyVal.num 6.5),
        ("treasury_10y", PyVal.num 4.2), ("baa_spread", PyVal.num 2.3)]) ∧
    (env.fredSeries "DGS10" = Except.ok [] → get_credit_spreads env = all_null_spread) ∧
    (∀ msg, env.fredSeries "DGS10" = Except.error msg →
      get_credit_spreads env = all_null_spread) ∧
    (env.fredSeries "BAA" = Except.ok [] → get_credit_spreads env = all_null_spread) ∧
    (∀ msg, env.fredSeries "BAA" = Except.error msg →
      get_credit_spreads env = all_null_spread) := by
  refine ⟨?_, ?_, ?_, ?_, ?_⟩
  · intro hB hT hbl htl
    have hsB : _safe_get_fred_series env "BAA" = some b := by
      unfold _safe_get_fred_series; rw [hB]
    have hsT : _safe_get_fred_series env "DGS10" = some t := by
      unfold _safe_get_fred_series; rw [hT]
    obtain ⟨oB, hoB, hoB2⟩ := Option.map_eq_some'.mp hbl
    obtain ⟨oT, hoT, hoT2⟩ := Option.map_eq_some'.mp htl
    have hbne : b.isEmpty = false := by
      cases b with
      | nil => simp at hoB
      | cons a r => rfl
    have htne : t.isEmpty = false := by
      cases t with
      | nil => simp at hoT
      | cons a r => rfl
    rw [List.getLast?_eq_getElem?] at hoB hoT
    unfold get_credit_spreads
    rw [hsB, hsT]
    dsimp only
    rw [if_neg (by rw [hbne, htne]; rintro (h | h) <;> exact Bool.noConfusion h)]
    rw [show ilocNeg b 1 = Except.ok oB from by unfold ilocNeg; rw [hoB]; rfl]
    simp only [except_bind_ok]
    rw [show ilocNeg t 1 = Except.ok oT from by unfold ilocNeg; rw [hoT]; rfl]
    simp only [except_bind_ok]
    rw [hoB2, hoT2]
    show PyVal.dict [("baa_yield", PyVal.num 6.5), ("treasury_10y", PyVal.num 4.2),
      ("baa_spread", PyVal.num (6.5 - 4.2))] = _
    rw [show (6.5 : ℚ) - 4.2 = 2.3 from by norm_num]
  · intro hT
    have hsT : _safe_get_fred_series env "DGS10" = some [] := by
      unfold _safe_get_fred_series; rw [hT]
    unfold get_credit_spreads
    rw [hsT]
    cases hB : _safe_get_fred_series env "BAA" with
    | none => rfl
    | some b2 =>
        dsimp only
        rw [if_pos (show b2.isEmpty = true ∨ ([] : List Obs).isEmpty = true from Or.inr rfl)]
        rfl
  · intro msg hT
    have hsT : _safe_get_fred_series env "DGS10" = none := by
      unfold _safe_get_fred_series; rw [hT]
    unfold get_credit_spreads
    rw [hsT]
    cases hB : _safe_get_fred_series env "BAA" with
    | none => rfl
    | some b2 => rfl
  · intro hB
    have hsB : _safe_get_fred_series env "BAA" = some [] := by
      unfold _safe_get_fred_series; rw [hB]
    unfold get_credit_spreads
    rw [hsB]
    cases hT : _safe_get_fred_series env "DGS10" with
    | none => rfl
    | some t2 =>
        dsimp only
        rw [if_pos (show ([] : List Obs).isEmpty = true ∨ t2.isEmpty = true from Or.inl rfl)]
        rfl
  · intro msg hB
    have hsB : _safe_get_fred_series env "BAA" = none := by
      unfold _safe_get_fred_series; rw [hB]
    unfold get_credit_spreads
    rw [hsB]
    cases hT : _safe_get_fred_series env "DGS10" with
    | none => rfl
    | some t2 => rfl

theorem credit_spreads_composite_witness :
    (envSpread.fredSeries "BAA" = Except.ok [("2026-09-01", 6.4), ("2026-10-01", 6.5)] ∧
     envSpread.fredSeries "DGS10" = Except.ok [("2026-09-01", 4.1), ("2026-10-01", 4.2)] ∧
     get_credit_spreads envSpread = PyVal.dict [("baa_yield", PyVal.num 6.5),
       ("treasury_10y", PyVal.num 4.2), ("baa_spread", PyVal.num 2.3)]) ∧
    (envSpreadEmpty10y.fredSeries "DGS10" = Except.ok [] ∧
     get_credit_spreads envSpreadEmpty10y = all_null_spread) ∧
    (envAllFail.fredSeries "DGS10" = Except.error "network unreachable" ∧
     get_credit_spreads envAllFail = all_null_spread) ∧
    (envSpreadEmptyBaa.fredSeries "BAA" = Except.ok [] ∧
     get_credit_spreads envSpreadEmptyBaa = all_null_spread) ∧
    (envSpreadNoBaa.fredSeries "BAA" = Except.error "network unreachable" ∧
     get_credit_spreads envSpreadNoBaa = all_null_spread) :=
  ⟨⟨rfl, rfl,
    (credit_spreads_composite envSpread [("2026-09-01", 6.4), ("2026-10-01", 6.5)]
      [("2026-09-01", 4.1), ("2026-10-01", 4.2)]).1 rfl rfl rfl rfl⟩,
   ⟨rfl, (credit_spreads_composite envSpreadEmpty10y [] []).2.1 rfl⟩,
   ⟨rfl, (credit_spreads_composite envAllFail [] []).2.2.1 "network unreachable" rfl⟩,
   ⟨rfl, (credit_spreads_composite envSpreadEmptyBaa [] []).2.2.2.1 rfl⟩,
   ⟨rfl, (credit_spreads_composite envSpreadNoBaa [] []).2.2.2.2 "network unreachable" rfl⟩⟩

theorem dictPop_of_find_none (entries : List (String × PyVal)) (k : String)
    (h : entries.find? (fun e => e.1 = k) = none) : dictPop entries k = (none, entries) := by
  unfold dictPop
  rw [h]

/-- C8: the export flattening gives `sub_metric` the literal `"value"` for a
single-value record, the key itself for a flat entry, and
`"<outerKey>_<innerKey>"` for a nested entry; the nested outcome
`{credit: {baa: 6.5, t10: 4.2}}` flattens to exactly one row per leaf, with
`sub_metric` values `credit_baa` and `credit_t10`. -/
theorem export_rows_submetric_rule (env : Env) (name : String) (d : List (String × PyVal))
    (v sv : PyVal) (k sk : String) (sub : List (String × PyVal)) :
    (export_rows env name [("value", v)] =
      [⟨name, "value", v, PyVal.str env.today, PyVal.str "Unknown", env.nowStr⟩]) ∧
    (d.find? (fun e => e.1 = "timestamp") = none →
     d.find? (fun e => e.1 = "source") = none →
     ¬ (d.length = 1 ∧ (d.find? (fun e => e.1 = "value")).isSome) →
     (((k, v) ∈ d ∧ ∀ sub2, v ≠ PyVal.dict sub2) →
        ∃ r ∈ export_rows env name d, r.sub_metric = k ∧ r.value = v) ∧
     ((k, PyVal.dict sub) ∈ d → (sk, sv) ∈ sub →
        ∃ r ∈ export_rows env name d, r.sub_metric = k ++ "_" ++ sk ∧ r.value = sv)) ∧
    (export_rows env "US Credit Spreads" [("credit", PyVal.dict [("baa", PyVal.num 6.5),
        ("t10", PyVal.num 4.2)]), ("timestamp", PyVal.str "2026-10-01"),
        ("source", PyVal.str "FRED")] =
      [⟨"US Credit Spreads", "credit_baa", PyVal.num 6.5, PyVal.str "2026-10-01",
         PyVal.str "FRED", env.nowStr⟩,
       ⟨"US Credit Spreads", "credit_t10", PyVal.num 4.2, PyVal.str "2026-10-01",
         PyVal.str "FRED", env.nowStr⟩]) := by
  refine ⟨rfl, ?_, rfl⟩
  intro hts hsrc hnotscalar
  have hrows : export_rows env name d =
      (d.map (fun e =>
        match e.2 with
        | PyVal.dict sub2 =>
            sub2.map (fun s =>
              (⟨name, e.1 ++ "_" ++ s.1, s.2, PyVal.str env.today, PyVal.str "Unknown",
                env.nowStr⟩ : ExportRow))
        | v2 => [⟨name, e.1, v2, PyVal.str env.today, PyVal.str "Unknown",
            env.nowStr⟩])).flatten := by
    unfold export_rows
    rw [dictPop_of_find_none d "timestamp" hts]
    dsimp only
    rw [dictPop_of_find_none d "source" hsrc]
    dsimp only
    rw [if_neg hnotscalar]
    rfl
  constructor
  · intro ⟨hmem, hnd⟩
    rw [hrows]
    have hflat : (match v with
        | PyVal.dict sub2 =>
            sub2.map (fun s =>
              (⟨name, k ++ "_" ++ s.1, s.2, PyVal.str env.today, PyVal.str "Unknown",
                env.nowStr⟩ : ExportRow))
        | v2 => [⟨name, k, v2, PyVal.str env.today, PyVal.str "Unknown", env.nowStr⟩]) =
        [⟨name, k, v, PyVal.str env.today, PyVal.str "Unknown", env.nowStr⟩] := by
      cases v with
      | dict sub2 => exact absurd rfl (hnd sub2)
      | null => rfl
      | bool b => rfl
      | num q => rfl
      | str s => rfl
    refine ⟨⟨name, k, v, PyVal.str env.today, PyVal.str "Unknown", env.nowStr⟩, ?_, rfl, rfl⟩
    exact List.mem_flatten.mpr ⟨_, List.mem_map.mpr ⟨(k, v), hmem, hflat⟩, List.mem_singleton.mpr rfl⟩
  · intro hmem hsmem
    rw [hrows]
    refine ⟨⟨name, k ++ "_" ++ sk, sv, PyVal.str env.today, PyVal.str "Unknown", env.nowStr⟩,
      ?_, rfl, rfl⟩
    refine List.mem_flatten.mpr ⟨_, List.mem_map.mpr ⟨(k, PyVal.dict sub), hmem, rfl⟩, ?_⟩
    exact List.mem_map.mpr ⟨(sk, sv), hsmem, rfl⟩

theorem export_rows_submetric_rule_witness :
    (([("gdp", PyVal.num 5), ("nest", PyVal.dict [("a", PyVal.num 7)])] :
        List (String × PyVal)).find? (fun e => e.1 = "timestamp") = none ∧
     ¬ (([("gdp", PyVal.num 5), ("nest", PyVal.dict [("a", PyVal.num 7)])] :
        List (String × PyVal)).length = 1 ∧
        (([("gdp", PyVal.num 5), ("nest", PyVal.dict [("a", PyVal.num 7)])] :
          List (String × PyVal)).find? (fun e => e.1 = "value")).isSome)) ∧
    (∃ r ∈ export_rows envAllFail "US GDP"
        [("gdp", PyVal.num 5), ("nest", PyVal.dict [("a", PyVal.num 7)])],
      r.sub_metric = "gdp" ∧ r.value = PyVal.num 5) ∧
    (∃ r ∈ export_rows envAllFail "US GDP"
        [("gdp", PyVal.num 5), ("nest", PyVal.dict [("a", PyVal.num 7)])],
      r.sub_metric = "nest" ++ "_" ++ "a" ∧ r.value = PyVal.num 7) :=
  ⟨⟨rfl, by decide⟩,
   ((export_rows_submetric_rule envAllFail "US GDP"
      [("gdp", PyVal.num 5), ("nest", PyVal.dict [("a", PyVal.num 7)])]
      (PyVal.num 5) (PyVal.num 7) "gdp" "a" [("a", PyVal.num 7)]).2.1 rfl rfl
      (by decide)).1
     ⟨List.mem_cons_self _ _, fun sub2 h => PyVal.noConfusion h⟩,
   ((export_rows_submetric_rule envAllFail "US GDP"
      [("gdp", PyVal.num 5), ("nest", PyVal.dict [("a", PyVal.num 7)])]
      (PyVal.num 5) (PyVal.num 7) "nest" "a" [("a", PyVal.num 7)]).2.1 rfl rfl
      (by decide)).2
     (List.mem_cons_of_mem _ (List.mem_cons_self _ _)) (List.mem_cons_self _ _)⟩


/-- C9 counterexample: the sentinel the code returns on an internal
timestamp failure is `'Date not available'` (capital D), not the literal
`"date not available"` the claim states. -/
theorem timestamp_sentinel_is_capitalized :
    get_timestamp_for_metric envAllFail "US GDP" = "Date not available" ∧
    get_timestamp_for_metric envAllFail "US GDP" ≠ "date not available" := by
  constructor
  · rfl
  · intro h
    rw [show get_timestamp_for_metric envAllFail "US GDP" = "Date not available"
      from rfl] at h
    exact absurd h (by decide)

/-- C9 amended: `get_timestamp_for_metric` always returns a string — either
the value its per-indicator strategy produced, or, on any internal failure,
exactly the literal sentinel `'Date not available'`; no fault propagates. -/
theorem timestamp_resolution_total (env : Env) (metric_name : String) :
    (∃ s, timestamp_body env metric_name = Except.ok s ∧
      get_timestamp_for_metric env metric_name = s) ∨
    (∃ e, timestamp_body env metric_name = Except.error e ∧
      get_timestamp_for_metric env metric_name = "Date not available") := by
  unfold get_timestamp_for_metric
  cases h : timestamp_body env metric_name with
  | ok s => exact Or.inl ⟨s, rfl, rfl⟩
  | error e => exact Or.inr ⟨e, rfl, rfl⟩

/-- Merged mapping of the derived-fallback scenario. -/
def erp_fallback_merged : List (String × PyVal) := [
  ("pe_ratio", PyVal.num 20), ("cape_ratio", PyVal.null),
  ("baa_yield", PyVal.null), ("treasury_10y", PyVal.null), ("baa_spread", PyVal.null),
  ("market_to_gdp", PyVal.null), ("gdp", PyVal.null), ("gdp_growth", PyVal.null),
  ("govt_debt", PyVal.null), ("govt_deficit", PyVal.null), ("debt_to_gdp", PyVal.null),
  ("10yr_yield", PyVal.num 4), ("inflation_rate", PyVal.null),
  ("equity_risk_premium", PyVal.num ((1 / 20) * 100 - 4)), ("earnings_growth", PyVal.null),
  ("gold_price", PyVal.null), ("bitcoin_price", PyVal.null), ("wti_crude_price", PyVal.null)]

/-- C10: in the `get_all_metrics` merge, a resolver result that is a dict
containing `'value'` collapses to just that entry under the indicator's
normalized name and contributes no other key; in particular the
equity-risk-premium fallback's `{value, earnings_yield, risk_free_rate}`
leaves only `equity_risk_premium` in the merged mapping, `earnings_yield`
and `risk_free_rate` being dropped. -/
theorem all_metrics_value_collapse (metrics entries : List (String × PyVal))
    (name : String) (v : PyVal) (k : String) :
    (get_all_metrics envErpFallback = PyVal.dict erp_fallback_merged ∧
     _calculate_equity_risk_premium envErpFallback =
       PyVal.dict [("value", PyVal.num ((1 / 20) * 100 - 4)),
         ("earnings_yield", PyVal.num ((1 / 20) * 100)),
         ("risk_free_rate", PyVal.num 4)] ∧
     dictGet? erp_fallback_merged "equity_risk_premium" = some (PyVal.num 1) ∧
     (erp_fallback_merged.map Prod.fst).contains "earnings_yield" = false ∧
     (erp_fallback_merged.map Prod.fst).contains "risk_free_rate" = false) ∧
    (dictGet? entries "value" = some v →
      merge_metric_result metrics name (Except.ok (PyVal.dict entries)) =
        dictInsert metrics (_normalize_metric_name name) v) ∧
    (dictGet? entries "value" = some v →
      k ∈ (merge_metric_result metrics name (Except.ok (PyVal.dict entries))).map Prod.fst →
      k ∈ metrics.map Prod.fst ∨ k = _normalize_metric_name name) := by
  have hmerge : ∀ (m e2 : List (String × PyVal)) (n : String) (v2 : PyVal),
      dictGet? e2 "value" = some v2 →
      merge_metric_result m n (Except.ok (PyVal.dict e2)) =
        dictInsert m (_normalize_metric_name n) v2 := by
    intro m e2 n v2 hv
    obtain ⟨e, he, he2⟩ := Option.map_eq_some'.mp hv
    simp only [merge_metric_result]
    rw [if_pos (by rw [he]; rfl)]
    unfold dictGet?
    rw [he]
    show dictInsert m (_normalize_metric_name n) ((some e.2).getD PyVal.null) = _
    rw [show (some e.2).getD PyVal.null = e.2 from rfl, he2]
  refine ⟨⟨rfl, rfl, ?_, rfl, rfl⟩, hmerge metrics entries name v, ?_⟩
  · have h : dictGet? erp_fallback_merged "equity_risk_premium" =
        some (PyVal.num ((1 / 20) * 100 - 4)) := rfl
    rw [h]
    exact congrArg (fun q : ℚ => some (PyVal.num q)) (by norm_num)
  · intro hv hmem
    rw [hmerge metrics entries name v hv] at hmem
    exact keys_dictInsert_sub metrics k (_normalize_metric_name name) v hmem

theorem all_metrics_value_collapse_witness :
    dictGet? [("value", PyVal.num 2), ("earnings_yield", PyVal.num 5)] "value" =
      some (PyVal.num 2) ∧
    merge_metric_result [] "US Equity Risk Premium"
      (Except.ok (PyVal.dict [("value", PyVal.num 2), ("earnings_yield", PyVal.num 5)])) =
      dictInsert [] (_normalize_metric_name "US Equity Risk Premium") (PyVal.num 2) ∧
    ("equity_risk_premium" ∈ (merge_metric_result [] "US Equity Risk Premium"
      (Except.ok (PyVal.dict [("value", PyVal.num 2),
        ("earnings_yield", PyVal.num 5)]))).map Prod.fst →
      "equity_risk_premium" ∈ ([] : List (String × PyVal)).map Prod.fst ∨
      "equity_risk_premium" = _normalize_metric_name "US Equity Risk Premium") :=
  ⟨rfl,
   (all_metrics_value_collapse [] [("value", PyVal.num 2), ("earnings_yield", PyVal.num 5)]
     "US Equity Risk Premium" (PyVal.num 2) "equity_risk_premium").2.1 rfl,
   (all_metrics_value_collapse [] [("value", PyVal.num 2), ("earnings_yield", PyVal.num 5)]
     "US Equity Risk Premium" (PyVal.num 2) "equity_risk_premium").2.2 rfl⟩

end MarketMetrics
